import Mathlib

/-!
Shallow embedding of the DevDocBuddy frontend session layer:
`src/frontend/src/stores/docStore.js`, `src/frontend/src/api/index.js`,
`src/frontend/src/components/QAWidget.vue` and
`src/frontend/src/analytics.js`.

Asynchronous API calls are embedded by parametrising each handler over the
outcome of its single awaited call (`Except err resp`); the handler is then a
pure transformer of the component's reactive state.  JavaScript values that
only matter through truthiness are modelled by `JsVal`.
-/

namespace DevDocBuddy

/-- A JavaScript primitive value, as far as truthiness, `detail` payloads and
`ready` flags are concerned. -/
inductive JsVal where
  | vundefined
  | vnull
  | vbool (b : Bool)
  | vnum (n : Int)
  | vstr (s : String)
deriving DecidableEq, Repr

/-- JavaScript truthiness of a `JsVal` (`Boolean(v)`, the `!!v` coercion). -/
def jsTruthy : JsVal → Bool
  | .vundefined => false
  | .vnull => false
  | .vbool b => b
  | .vnum n => n != 0
  | .vstr s => s != ""

/-- JS `a || b` for a possibly-missing string `a`: the fallback `b` is taken
when `a` is absent or the empty string (the only falsy string). -/
def jsOr (a : Option String) (b : String) : String :=
  match a with
  | some s => if s = "" then b else s
  | none => b

/-- JS `a || null` for a possibly-missing string `a`. -/
def jsOrNull (a : Option String) : Option String :=
  match a with
  | some s => if s = "" then none else some s
  | none => none

/-- JS `a || []` for a possibly-missing array `a`: every array (even an empty
one) is truthy, so a present array is kept as is. -/
def jsOrList (a : Option (List String)) : List String := a.getD []

/-- White space as JS `trim` strips it (the ASCII subset: space, tab, line
feed, vertical tab, form feed, carriage return). -/
def jsIsSpace (c : Char) : Bool :=
  c == ' ' || c == '\t' || c == '\n' || c == '\r' || c.toNat == 11 || c.toNat == 12

/-- JS `String.prototype.trim`: strips leading and trailing whitespace. -/
def jsTrim (s : String) : String :=
  String.mk (((s.data.dropWhile jsIsSpace).reverse.dropWhile jsIsSpace).reverse)

/-- `JSON.stringify` on a primitive `JsVal`, used by `asMessage` for a truthy
non-string `detail` (the undefined/null branches are unreachable there, both
being falsy). -/
def jsonStringify : JsVal → String
  | .vundefined => "undefined"
  | .vnull => "null"
  | .vbool b => cond b "true" "false"
  | .vnum n => toString n
  | .vstr s => "\"" ++ s ++ "\""

/-- The body of a failed HTTP response as `asMessage` inspects it: a JSON
object with an optional `detail` field, or a plain string body. -/
inductive RespData where
  | obj (detail : Option JsVal)
  | rstr (s : String)
deriving DecidableEq, Repr

/-- An axios rejection: `err?.response?.data` (absent when the request never
reached a response) and `err?.message`. -/
structure JsError where
  respData : Option RespData
  message : Option String
deriving DecidableEq, Repr

/-- The fallthrough of `asMessage` once `d?.detail` proved falsy:
`if (typeof d === 'string') return d; return err?.message || 'Request failed'`. -/
def asMessageRest (err : JsError) : String :=
  match err.respData with
  | some (.rstr s) => s
  | _ => jsOr err.message "Request failed"

/-- `asMessage` from `src/frontend/src/api/index.js`:
`if (d?.detail) return typeof d.detail === 'string' ? d.detail : JSON.stringify(d.detail)`
followed by the string-body and `err?.message` fallbacks. -/
def asMessage (err : JsError) : String :=
  match err.respData with
  | some (.obj (some v)) =>
    if jsTruthy v then
      match v with
      | .vstr s => s
      | _ => jsonStringify v
    else asMessageRest err
  | _ => asMessageRest err

/-- Response body of `/api/summarize`: `data.summary` and `data.title`. -/
structure SummarizeResp where
  summary : Option String
  title : Option String
deriving DecidableEq, Repr

/-- Response body of the upload endpoints: `data.summary`. -/
structure UploadResp where
  summary : Option String
deriving DecidableEq, Repr

/-- Response body of `/api/ask`: `data.answer` and `data.sources`. -/
structure AskResp where
  answer : Option String
  sources : Option (List String)
deriving DecidableEq, Repr

/-- Response body of `/api/index-status`: an object with a `ready` field
(possibly absent). -/
structure StatusObj where
  ready : Option JsVal
deriving DecidableEq, Repr

/-- The JSON body `summarize` posts. -/
structure SummarizeReq where
  query : String
  index : Bool
  mode : String
  title : String
deriving DecidableEq, Repr

/-- A POST request: target path plus JSON body. -/
structure PostReq where
  path : String
  body : SummarizeReq
deriving DecidableEq, Repr

namespace Api

/-- `summarize({query, index, mode, title})` posts `{query, index, mode, title}`
to `/api/summarize`. -/
def summarizeReq (query : String) (index : Bool) (mode : String) (title : String) : PostReq :=
  { path := "/api/summarize", body := { query := query, index := index, mode := mode, title := title } }

/-- `uploadFile`: a rejected POST to `/api/upload` is rethrown as
`new Error(asMessage(e))`. -/
def uploadFile (outcome : Except JsError UploadResp) : Except String UploadResp :=
  match outcome with
  | .ok d => .ok d
  | .error e => .error (asMessage e)

/-- `addDocument`: a rejected POST to `/api/add-doc` is rethrown as
`new Error(asMessage(e))`. -/
def addDocument (outcome : Except JsError UploadResp) : Except String UploadResp :=
  match outcome with
  | .ok d => .ok d
  | .error e => .error (asMessage e)

/-- `uploadFromURL`: a rejected POST to `/api/upload-url` is rethrown as
`new Error(asMessage(e))`. -/
def uploadFromURL (outcome : Except JsError UploadResp) : Except String UploadResp :=
  match outcome with
  | .ok d => .ok d
  | .error e => .error (asMessage e)

/-- `resetEmbeddings`: a rejected POST to `/api/reset` is rethrown as
`new Error(asMessage(e))`. -/
def resetEmbeddings (outcome : Except JsError Unit) : Except String Unit :=
  match outcome with
  | .ok d => .ok d
  | .error e => .error (asMessage e)

/-- `askQA`: a rejected POST to `/api/ask` is rethrown as
`new Error(asMessage(e))`. -/
def askQA (outcome : Except JsError AskResp) : Except String AskResp :=
  match outcome with
  | .ok d => .ok d
  | .error e => .error (asMessage e)

end Api

/-- The reactive state of `useDocStore`. -/
structure DocState where
  query : String
  url : String
  results : Option String
  loading : Bool
  error : Option String
  lastFilename : Option String
  hasIndex : Bool
deriving DecidableEq, Repr

/-- The store's initial `state()`. -/
def docInit : DocState :=
  { query := "", url := "", results := none, loading := false,
    error := none, lastFilename := none, hasIndex := false }

namespace Store

/-- `initIndexStatus`: on resolve `hasIndex = !!st?.ready` (the resolved data
`st` may itself be null); on reject `hasIndex = false`. -/
def initIndexStatus (outcome : Except (Option String) (Option StatusObj)) (s : DocState) : DocState :=
  match outcome with
  | .ok st =>
    { s with hasIndex :=
        match st with
        | some o => (match o.ready with | some v => jsTruthy v | none => false)
        | none => false }
  | .error _ => { s with hasIndex := false }

/-- The request `fetchSummary` issues:
`summarize({ query: this.query, index: true, mode: 'replace', title: 'Manual Text' })`. -/
def fetchSummaryRequest (s : DocState) : PostReq :=
  Api.summarizeReq s.query true "replace" "Manual Text"

/-- `fetchSummary` store action.  `outcome` is the awaited `summarize` call:
`Except.error m` is a rejection whose caught error has message `m` (`none`
when `e?.message` is undefined). -/
def fetchSummary (outcome : Except (Option String) SummarizeResp) (s : DocState) : DocState :=
  let s1 : DocState := { s with loading := true, error := none }
  match outcome with
  | .ok data =>
    { s1 with
        results := jsOrNull data.summary,
        lastFilename := some (jsOr data.title "Manual Text"),
        hasIndex := true,
        loading := false }
  | .error m =>
    { s1 with error := some (jsOr m "Failed to summarize"), loading := false }

/-- `uploadFile` store action; `fileName` models `file?.name` (`none` when the
file or its name is missing).  `this.lastFilename = file?.name || null` runs
before the awaited call. -/
def uploadFile (fileName : Option String) (outcome : Except (Option String) UploadResp)
    (s : DocState) : DocState :=
  let s1 : DocState := { s with loading := true, error := none, lastFilename := jsOrNull fileName }
  match outcome with
  | .ok data =>
    { s1 with results := jsOrNull data.summary, hasIndex := true, loading := false }
  | .error m =>
    { s1 with error := some (jsOr m "File upload failed"), loading := false }

/-- `addDoc` store action; mirrors `uploadFile` with the add-doc endpoint and
its own fallback message. -/
def addDoc (fileName : Option String) (outcome : Except (Option String) UploadResp)
    (s : DocState) : DocState :=
  let s1 : DocState := { s with loading := true, error := none, lastFilename := jsOrNull fileName }
  match outcome with
  | .ok data =>
    { s1 with results := jsOrNull data.summary, hasIndex := true, loading := false }
  | .error m =>
    { s1 with error := some (jsOr m "Add-doc failed"), loading := false }

/-- `uploadFromURL` store action; `this.lastFilename = url` runs before the
awaited call. -/
def uploadFromURL (url : String) (outcome : Except (Option String) UploadResp)
    (s : DocState) : DocState :=
  let s1 : DocState := { s with loading := true, error := none, lastFilename := some url }
  match outcome with
  | .ok data =>
    { s1 with results := jsOrNull data.summary, hasIndex := true, loading := false }
  | .error m =>
    { s1 with error := some (jsOr m "URL upload failed"), loading := false }

/-- `resetIndex` store action: on resolve clears results, lastFilename, query,
url and hasIndex; on reject only records the error. -/
def resetIndex (outcome : Except (Option String) Unit) (s : DocState) : DocState :=
  let s1 : DocState := { s with loading := true, error := none }
  match outcome with
  | .ok _ =>
    { s1 with results := none, lastFilename := none, query := "", url := "",
              hasIndex := false, loading := false }
  | .error m =>
    { s1 with error := some (jsOr m "Reset failed"), loading := false }

end Store

/-- A chat message of QAWidget: the `from` field is `sender` here (`from` is
reserved in Lean); `sources`/`showSources` are absent on user and error
messages. -/
structure ChatMsg where
  sender : String
  text : String
  sources : Option (List String)
  showSources : Option Bool
deriving DecidableEq, Repr

/-- The user message pushed for a submitted question `q`:
`{ from: 'user', text: q }`. -/
def userMsgOf (q : String) : ChatMsg :=
  { sender := "user", text := q, sources := none, showSources := none }

/-- The AI message pushed on a successful `/api/ask` response:
`{ from: 'ai', text: res.data.answer || 'No answer received.',
sources: res.data.sources || [], showSources: false }`. -/
def aiMsgOf (r : AskResp) : ChatMsg :=
  { sender := "ai", text := jsOr r.answer "No answer received.",
    sources := some (jsOrList r.sources), showSources := some false }

/-- The chat message `askQuestion` pushes when the POST rejects. -/
def errAiMsg : ChatMsg :=
  { sender := "ai", text := "Error: Failed to fetch answer.",
    sources := none, showSources := none }

/-- Reactive state of the first QAWidget variant (handler `askQuestion`). -/
structure QAState where
  question : String
  messages : List ChatMsg
  loading : Bool
deriving DecidableEq, Repr

/-- Reactive state of the second QAWidget variant (handler `sendQuestion`),
which also has an `error` ref. -/
structure QASendState where
  question : String
  messages : List ChatMsg
  loading : Bool
  error : Option String
deriving DecidableEq, Repr

/-- `askQuestion` handler: returns the final widget state and whether a POST
to `/api/ask` was issued.  `outcome` is the result of that POST (unused when
the blank-question guard returns early). -/
def askQuestion (outcome : Except (Option String) AskResp) (s : QAState) : QAState × Bool :=
  if jsTrim s.question = "" then (s, false)
  else
    let s1 : QAState :=
      { s with messages := s.messages ++ [userMsgOf s.question], question := "", loading := true }
    match outcome with
    | .ok res =>
      ({ s1 with messages := s1.messages ++ [aiMsgOf res], loading := false }, true)
    | .error _ =>
      ({ s1 with messages := s1.messages ++ [errAiMsg], loading := false }, true)

/-- `sendQuestion` handler of the second variant: on rejection it sets the
`error` ref instead of pushing a chat message; the `finally` block clears
`loading` and the question input. -/
def sendQuestion (outcome : Except (Option String) AskResp) (s : QASendState) : QASendState × Bool :=
  if jsTrim s.question = "" then (s, false)
  else
    let s1 : QASendState :=
      { s with error := none, loading := true, messages := s.messages ++ [userMsgOf s.question] }
    match outcome with
    | .ok res =>
      ({ s1 with messages := s1.messages ++ [aiMsgOf res], loading := false, question := "" }, true)
    | .error _ =>
      ({ s1 with error := some "Failed to get answer. Please try again.",
                 loading := false, question := "" }, true)

/-- The `window.plausible` binding as `track` sees it: absent (no `window`, or
the property is not a function), or a function whose invocation on the given
name and props either completes or throws the returned message. -/
inductive AnalyticsBinding where
  | absent
  | fn (call : String → List (String × JsVal) → Option String)

/-- The body of `track`'s try block: calls the binding when it is a function;
a thrown exception propagates as `Except.error`. -/
def trackTryBody (w : AnalyticsBinding) (name : String) (props : List (String × JsVal)) :
    Except String Unit :=
  match w with
  | .absent => .ok ()
  | .fn call =>
    match call name props with
    | none => .ok ()
    | some e => .error e

/-- `track` from `src/frontend/src/analytics.js`: the empty catch block
swallows every exception of the try body. -/
def track (w : AnalyticsBinding) (name : String) (props : List (String × JsVal)) :
    Except String Unit :=
  match trackTryBody w name props with
  | .ok u => .ok u
  | .error _ => .ok ()

/-- Modelled from the spec: the backend (Chunker, Index Store, Session State)
is not under src/, so the index status it would report after a pasted-text
ingest in replace mode is taken from the spec: the Chunker "Produces zero
chunks for empty/whitespace-only input" (an ingestion no-op) and `ready` "is
true iff the Index contains ≥1 chunk", so after replacing the index with the
chunks of text `q` the reported ready flag is true iff `q` has a
non-whitespace character. -/
def specReadyAfterReplace (q : String) : Bool := jsTrim q != ""

/-- Claim C1 counterexample: a successful `fetchSummary` on whitespace-only
pasted text sets `hasIndex` to true, although the backend-reported index
status (per the spec, nothing is chunked for whitespace input, so ready is
false) would be false — the flag is set by the action itself, not derived
from the Index Store's reported state. -/
theorem claimC1_cx :
    (Store.fetchSummary (Except.ok { summary := none, title := none })
        { docInit with query := "   " }).hasIndex = true
    ∧ specReadyAfterReplace "   " = false := by
  exact ⟨rfl, by decide⟩

/-- Claim C1 (amended): each ingestion action (fetchSummary, uploadFile,
addDoc, uploadFromURL) sets `hasIndex` to true unconditionally when its API
call succeeds and leaves it unchanged when the call rejects; it is not
re-derived from the backend's reported index status. -/
theorem claimC1 (s : DocState) (r : SummarizeResp) (u : UploadResp)
    (fn m : Option String) (url : String) :
    (Store.fetchSummary (Except.ok r) s).hasIndex = true
    ∧ (Store.uploadFile fn (Except.ok u) s).hasIndex = true
    ∧ (Store.addDoc fn (Except.ok u) s).hasIndex = true
    ∧ (Store.uploadFromURL url (Except.ok u) s).hasIndex = true
    ∧ (Store.fetchSummary (Except.error m) s).hasIndex = s.hasIndex
    ∧ (Store.uploadFile fn (Except.error m) s).hasIndex = s.hasIndex
    ∧ (Store.addDoc fn (Except.error m) s).hasIndex = s.hasIndex
    ∧ (Store.uploadFromURL url (Except.error m) s).hasIndex = s.hasIndex :=
  ⟨rfl, rfl, rfl, rfl, rfl, rfl, rfl, rfl⟩

/-- Claim C2 counterexample: `uploadFile` assigns `lastFilename` before the
awaited call, so a rejected upload of a file named "a.pdf" from the initial
state leaves `lastFilename = some "a.pdf"`, not its prior value `none`. -/
theorem claimC2_cx :
    (Store.uploadFile (some "a.pdf") (Except.error none) docInit).lastFilename
      ≠ docInit.lastFilename := by
  decide

/-- Claim C2 (amended): when the awaited API call rejects, fetchSummary and
resetIndex leave every field other than error and loading unchanged; the
three upload actions leave query, url, results and hasIndex unchanged but
have already overwritten lastFilename (with `file?.name || null` for the
file actions, with the url for uploadFromURL) before the call. -/
theorem claimC2 (s : DocState) (m fn : Option String) (u : String) :
    ((Store.fetchSummary (Except.error m) s).results = s.results
      ∧ (Store.fetchSummary (Except.error m) s).lastFilename = s.lastFilename
      ∧ (Store.fetchSummary (Except.error m) s).query = s.query
      ∧ (Store.fetchSummary (Except.error m) s).url = s.url
      ∧ (Store.fetchSummary (Except.error m) s).hasIndex = s.hasIndex)
    ∧ ((Store.resetIndex (Except.error m) s).results = s.results
      ∧ (Store.resetIndex (Except.error m) s).lastFilename = s.lastFilename
      ∧ (Store.resetIndex (Except.error m) s).query = s.query
      ∧ (Store.resetIndex (Except.error m) s).url = s.url
      ∧ (Store.resetIndex (Except.error m) s).hasIndex = s.hasIndex)
    ∧ ((Store.uploadFile fn (Except.error m) s).results = s.results
      ∧ (Store.uploadFile fn (Except.error m) s).query = s.query
      ∧ (Store.uploadFile fn (Except.error m) s).url = s.url
      ∧ (Store.uploadFile fn (Except.error m) s).hasIndex = s.hasIndex
      ∧ (Store.uploadFile fn (Except.error m) s).lastFilename = jsOrNull fn)
    ∧ ((Store.addDoc fn (Except.error m) s).results = s.results
      ∧ (Store.addDoc fn (Except.error m) s).query = s.query
      ∧ (Store.addDoc fn (Except.error m) s).url = s.url
      ∧ (Store.addDoc fn (Except.error m) s).hasIndex = s.hasIndex
      ∧ (Store.addDoc fn (Except.error m) s).lastFilename = jsOrNull fn)
    ∧ ((Store.uploadFromURL u (Except.error m) s).results = s.results
      ∧ (Store.uploadFromURL u (Except.error m) s).query = s.query
      ∧ (Store.uploadFromURL u (Except.error m) s).url = s.url
      ∧ (Store.uploadFromURL u (Except.error m) s).hasIndex = s.hasIndex
      ∧ (Store.uploadFromURL u (Except.error m) s).lastFilename = some u) :=
  ⟨⟨rfl, rfl, rfl, rfl, rfl⟩, ⟨rfl, rfl, rfl, rfl, rfl⟩,
   ⟨rfl, rfl, rfl, rfl, rfl⟩, ⟨rfl, rfl, rfl, rfl, rfl⟩,
   ⟨rfl, rfl, rfl, rfl, rfl⟩⟩

/-- Claim C3: a question whose trim is empty is rejected up front — both
handlers return with the widget state unchanged, issue no POST to /api/ask
and append no chat message. -/
theorem claimC3 (o p : Except (Option String) AskResp) (s : QAState) (t : QASendState)
    (hs : jsTrim s.question = "") (ht : jsTrim t.question = "") :
    askQuestion o s = (s, false) ∧ sendQuestion p t = (t, false) := by
  constructor
  · simp [askQuestion, hs]
  · simp [sendQuestion, ht]

/-- Claim C3 witness: the blank-question guard at the concrete input " ". -/
theorem claimC3_wit :
    askQuestion (Except.error none) { question := " ", messages := [], loading := false }
      = ({ question := " ", messages := [], loading := false }, false)
    ∧ sendQuestion (Except.error none)
        { question := " ", messages := [], loading := false, error := none }
      = ({ question := " ", messages := [], loading := false, error := none }, false) :=
  claimC3 (Except.error none) (Except.error none)
    { question := " ", messages := [], loading := false }
    { question := " ", messages := [], loading := false, error := none }
    (by decide) (by decide)

/-- Claim C4: a successful resetIndex returns the session to the empty
not-ready state, and a second successful resetIndex yields exactly the same
state. -/
theorem claimC4 (s : DocState) :
    (Store.resetIndex (Except.ok ()) s).results = none
    ∧ (Store.resetIndex (Except.ok ()) s).lastFilename = none
    ∧ (Store.resetIndex (Except.ok ()) s).query = ""
    ∧ (Store.resetIndex (Except.ok ()) s).url = ""
    ∧ (Store.resetIndex (Except.ok ()) s).hasIndex = false
    ∧ Store.resetIndex (Except.ok ()) (Store.resetIndex (Except.ok ()) s)
        = Store.resetIndex (Except.ok ()) s :=
  ⟨rfl, rfl, rfl, rfl, rfl, rfl⟩

/-- Claim C5 counterexample: an error response whose body carries the string
field `detail = ""` is not reported verbatim — `if (d?.detail)` is falsy on
the empty string, so the thrown message is the fallback "Request failed". -/
theorem claimC5_cx :
    Api.uploadFile (Except.error
        { respData := some (RespData.obj (some (JsVal.vstr ""))), message := none })
      = (Except.error "Request failed" : Except String UploadResp)
    ∧ ("Request failed" : String) ≠ "" := by
  exact ⟨rfl, by decide⟩

/-- Claim C5 (amended): for every failed call in uploadFile, addDocument,
uploadFromURL, resetEmbeddings and askQA whose error response carries a
non-empty string field `detail`, the thrown Error's message equals that
detail string character for character. -/
theorem claimC5 (e : JsError) (d : String) (hd : d ≠ "")
    (h : e.respData = some (RespData.obj (some (JsVal.vstr d)))) :
    Api.uploadFile (Except.error e) = Except.error d
    ∧ Api.addDocument (Except.error e) = Except.error d
    ∧ Api.uploadFromURL (Except.error e) = Except.error d
    ∧ Api.resetEmbeddings (Except.error e) = Except.error d
    ∧ Api.askQA (Except.error e) = Except.error d := by
  have hm : asMessage e = d := by
    simp [asMessage, h, jsTruthy, hd]
  simp [Api.uploadFile, Api.addDocument, Api.uploadFromURL, Api.resetEmbeddings,
        Api.askQA, hm]

/-- Claim C5 witness: a failed upload whose body is `{"detail": "boom"}` is
rethrown with message "boom" by all five wrappers. -/
theorem claimC5_wit :
    Api.uploadFile (Except.error
        { respData := some (RespData.obj (some (JsVal.vstr "boom"))), message := none })
      = Except.error "boom"
    ∧ Api.addDocument (Except.error
        { respData := some (RespData.obj (some (JsVal.vstr "boom"))), message := none })
      = Except.error "boom"
    ∧ Api.uploadFromURL (Except.error
        { respData := some (RespData.obj (some (JsVal.vstr "boom"))), message := none })
      = Except.error "boom"
    ∧ Api.resetEmbeddings (Except.error
        { respData := some (RespData.obj (some (JsVal.vstr "boom"))), message := none })
      = Except.error "boom"
    ∧ Api.askQA (Except.error
        { respData := some (RespData.obj (some (JsVal.vstr "boom"))), message := none })
      = Except.error "boom" :=
  claimC5 { respData := some (RespData.obj (some (JsVal.vstr "boom"))), message := none }
    "boom" (by decide) rfl

/-- Claim C6: initIndexStatus sets hasIndex to true iff the status query
resolved to an object whose ready field is present and truthy, and sets
hasIndex to false on every rejection, so a failed probe never enables Q&A. -/
theorem claimC6 (s : DocState) (st : Option StatusObj) (m : Option String) :
    ((Store.initIndexStatus (Except.ok st) s).hasIndex = true
      ↔ ∃ o, st = some o ∧ ∃ v, o.ready = some v ∧ jsTruthy v = true)
    ∧ (Store.initIndexStatus (Except.error m) s).hasIndex = false := by
  constructor
  · cases st with
    | none => simp [Store.initIndexStatus]
    | some o =>
      cases h : o.ready with
      | none => simp [Store.initIndexStatus, h]
      | some v => simp [Store.initIndexStatus, h]
  · rfl

/-- Claim C7 counterexample: a successful summarize response carrying the
title `""` does not set lastFilename to that title — the `||` fallback fires
on the empty string as well, yielding "Manual Text". -/
theorem claimC7_cx :
    (Store.fetchSummary (Except.ok { summary := none, title := some "" })
        docInit).lastFilename = some "Manual Text"
    ∧ (some "Manual Text" : Option String) ≠ some "" := by
  exact ⟨rfl, by decide⟩

/-- Claim C7 (amended): every fetchSummary call posts
`{query, index: true, mode: 'replace', title: 'Manual Text'}` to
/api/summarize, and on success sets lastFilename to the returned title,
falling back to "Manual Text" when the response carries no title or an empty
title. -/
theorem claimC7 (s : DocState) (r : SummarizeResp) :
    Store.fetchSummaryRequest s
      = { path := "/api/summarize",
          body := { query := s.query, index := true, mode := "replace",
                    title := "Manual Text" } }
    ∧ (Store.fetchSummary (Except.ok r) s).lastFilename
      = some (match r.title with
              | some t => if t = "" then "Manual Text" else t
              | none => "Manual Text") := by
  constructor
  · rfl
  · cases h : r.title with
    | none => simp [Store.fetchSummary, jsOr, h]
    | some t => simp [Store.fetchSummary, jsOr, h]

/-- Claim C8: track never throws — for every state of the window.plausible
binding (absent, completing, or throwing on the given name and props) and
every event name and props, track completes normally. -/
theorem claimC8 (w : AnalyticsBinding) (name : String) (props : List (String × JsVal)) :
    track w name props = Except.ok () := by
  cases w with
  | absent => rfl
  | fn call =>
    cases h : call name props with
    | none => simp [track, trackTryBody, h]
    | some e => simp [track, trackTryBody, h]

/-- Claim C9: every store action other than initIndexStatus ends with
loading = false, whether its awaited call resolves or rejects. -/
theorem claimC9 (s : DocState) (o1 : Except (Option String) SummarizeResp)
    (o2 o3 o4 : Except (Option String) UploadResp) (o5 : Except (Option String) Unit)
    (fn : Option String) (u : String) :
    (Store.fetchSummary o1 s).loading = false
    ∧ (Store.uploadFile fn o2 s).loading = false
    ∧ (Store.addDoc fn o3 s).loading = false
    ∧ (Store.uploadFromURL u o4 s).loading = false
    ∧ (Store.resetIndex o5 s).loading = false := by
  refine ⟨?_, ?_, ?_, ?_, ?_⟩
  · cases o1 <;> rfl
  · cases o2 <;> rfl
  · cases o3 <;> rfl
  · cases o4 <;> rfl
  · cases o5 <;> rfl

/-- Claim C10 counterexample: when the /api/ask request rejects, sendQuestion
appends only the user message — no error chat message follows (the failure is
recorded in the separate error ref), so exactly one message is appended, not
two. -/
theorem claimC10_cx :
    ((sendQuestion (Except.error none)
        { question := "q", messages := [], loading := false, error := none }).1).messages
      = [userMsgOf "q"]
    ∧ ([userMsgOf "q"] : List ChatMsg).length = 1 := by
  exact ⟨rfl, rfl⟩

/-- Claim C10 (amended): for a non-blank question, askQuestion appends the
user message followed by exactly one AI message — the answer, falling back to
"No answer received." when the answer is absent or empty, or the error chat
message on rejection — and clears the input; sendQuestion does the same on
success, but on rejection appends only the user message and records the
failure in its error ref; previously appended messages are preserved
throughout. -/
theorem claimC10 (s : QAState) (t : QASendState) (r r2 : AskResp) (m m2 : Option String)
    (hs : jsTrim s.question ≠ "") (ht : jsTrim t.question ≠ "") :
    (askQuestion (Except.ok r) s).1.messages
      = s.messages ++ [userMsgOf s.question, aiMsgOf r]
    ∧ (askQuestion (Except.ok r) s).1.question = ""
    ∧ (askQuestion (Except.error m) s).1.messages
      = s.messages ++ [userMsgOf s.question, errAiMsg]
    ∧ (askQuestion (Except.error m) s).1.question = ""
    ∧ (sendQuestion (Except.ok r2) t).1.messages
      = t.messages ++ [userMsgOf t.question, aiMsgOf r2]
    ∧ (sendQuestion (Except.ok r2) t).1.question = ""
    ∧ (sendQuestion (Except.error m2) t).1.messages = t.messages ++ [userMsgOf t.question]
    ∧ (sendQuestion (Except.error m2) t).1.error
      = some "Failed to get answer. Please try again."
    ∧ (sendQuestion (Except.error m2) t).1.question = "" := by
  refine ⟨?_, ?_, ?_, ?_, ?_, ?_, ?_, ?_, ?_⟩ <;>
    simp [askQuestion, sendQuestion, hs, ht]

/-- Claim C10 witness: the handlers at concrete inputs with question "q". -/
theorem claimC10_wit :
    (askQuestion (Except.ok { answer := none, sources := none })
        { question := "q", messages := [], loading := false }).1.messages
      = [userMsgOf "q", aiMsgOf { answer := none, sources := none }]
    ∧ (askQuestion (Except.ok { answer := none, sources := none })
        { question := "q", messages := [], loading := false }).1.question = ""
    ∧ (askQuestion (Except.error none)
        { question := "q", messages := [], loading := false }).1.messages
      = [userMsgOf "q", errAiMsg]
    ∧ (askQuestion (Except.error none)
        { question := "q", messages := [], loading := false }).1.question = ""
    ∧ (sendQuestion (Except.ok { answer := none, sources := none })
        { question := "q", messages := [], loading := false, error := none }).1.messages
      = [userMsgOf "q", aiMsgOf { answer := none, sources := none }]
    ∧ (sendQuestion (Except.ok { answer := none, sources := none })
        { question := "q", messages := [], loading := false, error := none }).1.question = ""
    ∧ (sendQuestion (Except.error none)
        { question := "q", messages := [], loading := false, error := none }).1.messages
      = [userMsgOf "q"]
    ∧ (sendQuestion (Except.error none)
        { question := "q", messages := [], loading := false, error := none }).1.error
      = some "Failed to get answer. Please try again."
    ∧ (sendQuestion (Except.error none)
        { question := "q", messages := [], loading := false, error := none }).1.question = "" :=
  claimC10 { question := "q", messages := [], loading := false }
    { question := "q", messages := [], loading := false, error := none }
    { answer := none, sources := none } { answer := none, sources := none }
    none none (by decide) (by decide)

end DevDocBuddy
